import Mathlib

/-!
Verification of the capability/degradation core of the
`nextjs-production-starter` repository: capability resolution
(`src/lib/features.ts` and its runtime-getter / database-mandatory
variants), the degrading Redis cache handler (`src/cache-handler.mjs`),
the health aggregation endpoint (`src/app/api/health/route.ts`), the
bearer-token cron endpoint, and the guarded database accessor
(`src/lib/db.ts`).

JavaScript semantics are embedded shallowly: environment variables are
`Option String` (absent = `undefined`), JavaScript string truthiness is
`s ≠ ""`, exceptions are `Except String`, and the `try`/`catch` blocks of
the source are explicit `match`es on an `Except` body.
-/

namespace Starter

/-- An environment snapshot: the environment variables read by
`src/lib/features.ts`.  `none` models an unset variable. -/
structure Env where
  NEXTAUTH_SECRET : Option String := none
  DATABASE_URL : Option String := none
  REDIS_URL : Option String := none
  GITHUB_ID : Option String := none
  GITHUB_SECRET : Option String := none
  GOOGLE_ID : Option String := none
  GOOGLE_SECRET : Option String := none
  DISCORD_ID : Option String := none
  DISCORD_SECRET : Option String := none
deriving DecidableEq, Repr

/-- JavaScript truthiness of an optional string: `undefined` and the empty
string are falsy, every other string (including whitespace-only) is
truthy.  This is the meaning of `!!v` in the source. -/
def truthy : Option String → Bool
  | none => false
  | some s => s ≠ ""

namespace features

/-- `features.auth` from `src/lib/features.ts`: `!!process.env.NEXTAUTH_SECRET`. -/
def auth (e : Env) : Bool := truthy e.NEXTAUTH_SECRET

/-- `features.database`: `!!process.env.DATABASE_URL`. -/
def database (e : Env) : Bool := truthy e.DATABASE_URL

/-- `features.redis`: `!!process.env.REDIS_URL`. -/
def redis (e : Env) : Bool := truthy e.REDIS_URL

/-- `features.githubProvider`: `!!(process.env.GITHUB_ID && process.env.GITHUB_SECRET)`.
In JavaScript `a && b` yields `a` when `a` is falsy and `b` otherwise, so
`!!(a && b)` is the conjunction of the two truthiness tests. -/
def githubProvider (e : Env) : Bool := truthy e.GITHUB_ID && truthy e.GITHUB_SECRET

/-- `features.googleProvider`: `!!(process.env.GOOGLE_ID && process.env.GOOGLE_SECRET)`. -/
def googleProvider (e : Env) : Bool := truthy e.GOOGLE_ID && truthy e.GOOGLE_SECRET

/-- `features.discordProvider`: `!!(process.env.DISCORD_ID && process.env.DISCORD_SECRET)`. -/
def discordProvider (e : Env) : Bool := truthy e.DISCORD_ID && truthy e.DISCORD_SECRET

end features

/-- The session-strategy enum of `getAuthStrategy`. -/
inductive Strategy where
  | jwt
  | database
deriving DecidableEq, Repr

/-- `getAuthStrategy` of the persistence-optional variants
(`src/lib/features.ts`, `src/unnamed/part_006`):
`features.database ? 'database' : 'jwt'`. -/
def getAuthStrategy (e : Env) : Strategy :=
  if features.database e then .database else .jwt

/-- `getAuthStrategy` of the persistence-mandatory variant
(`src/unnamed/part_007`): returns `'database'` unconditionally. -/
def getAuthStrategyMandatory (_e : Env) : Strategy := .database

/-- The three OAuth provider identifiers. -/
inductive Provider where
  | github
  | google
  | discord
deriving DecidableEq, Repr

/-- The capability flag of one provider, as tested by `getEnabledProviders`. -/
def providerFeature (e : Env) : Provider → Bool
  | .github => features.githubProvider e
  | .google => features.googleProvider e
  | .discord => features.discordProvider e

/-- `getEnabledProviders` from `src/lib/features.ts`: starts from an empty
array and pushes `'github'`, `'google'`, `'discord'` in that order, each
guarded by its capability flag. -/
def getEnabledProviders (e : Env) : List Provider :=
  let providers : List Provider := []
  let providers := if features.githubProvider e then providers ++ [.github] else providers
  let providers := if features.googleProvider e then providers ++ [.google] else providers
  let providers := if features.discordProvider e then providers ++ [.discord] else providers
  providers

/-- The spec's reading of a provider capability: the value is non-empty
AFTER TRIMMING, i.e. it contains at least one non-whitespace character.
Stated from the spec's words, for comparison with the source's
`truthy`-based definition. -/
def specTruthy : Option String → Bool
  | none => false
  | some s => s.toList.any (fun c => !c.isWhitespace)

/-- The claimed characterisation of the GitHub capability, written from the
spec: true iff both values are present and non-empty after trimming. -/
def specGithubCap (e : Env) : Bool :=
  specTruthy e.GITHUB_ID && specTruthy e.GITHUB_SECRET

end Starter

namespace Starter

/-- C1 counterexample input: the GitHub client identifier is a single
space (whitespace-only), the secret is a normal string. -/
def c1Env : Env := { GITHUB_ID := some " ", GITHUB_SECRET := some "x" }

end Starter

namespace Starter.Cache

/-- Contents of the remote Redis store: an association list from key to
serialized string; the most recent write for a key comes first. -/
abbrev Store := List (String × String)

/-- Lookup in the store: first binding wins (models overwrite by `SETEX`). -/
def Store.find : Store → String → Option String
  | [], _ => none
  | (k, v) :: rest, key => if k = key then some v else Store.find rest key

/-- Whether the character-list pattern occurs at the head of the text. -/
def begWith : List Char → List Char → Bool
  | [], _ => true
  | _ :: _, [] => false
  | a :: as, b :: bs => a == b && begWith as bs

/-- Whether the character-list pattern occurs anywhere in the text. -/
def occursIn (pat : List Char) : List Char → Bool
  | [] => begWith pat []
  | c :: cs => begWith pat (c :: cs) || occursIn pat cs

/-- Whether `pat` occurs as a substring of `s`: the semantics of the Redis
glob pattern `*pat*` used by `revalidateTag` (for a tag without glob
metacharacters). -/
def hasSub (s pat : String) : Bool := occursIn pat.toList s.toList

/-- The remote backend as seen through one call sequence: either healthy
with a concrete store, or failing — every call times out or throws with
the given message.  This is the `RemoteStoreHealth` distinction the cache
handler degrades over. -/
inductive Remote where
  | healthy (store : Store)
  | failing (msg : String)

/-- `redis.get key`: returns the stored string, or throws when failing. -/
def Remote.getOp : Remote → String → Except String (Option String)
  | .healthy s, key => .ok (s.find key)
  | .failing m, _ => .error m

/-- `redis.setex key ttl value`: writes with expiry; Redis rejects a
non-positive expire time; throws when failing. -/
def Remote.setexOp : Remote → String → Nat → String → Except String Remote
  | .healthy s, key, ttl, v =>
      if ttl = 0 then .error "ERR invalid expire time in setex"
      else .ok (.healthy ((key, v) :: s))
  | .failing m, _, _, _ => .error m

/-- `redis.keys pat` for the glob `*tag*`: the keys containing `tag` as a
substring; throws when failing. -/
def Remote.keysOp : Remote → String → Except String (List String)
  | .healthy s, tag => .ok ((s.filter (fun kv => hasSub kv.1 tag)).map Prod.fst)
  | .failing m, _ => .error m

/-- `redis.del keys...`: removes every listed key; throws when failing. -/
def Remote.delOp : Remote → List String → Except String Remote
  | .healthy s, ks => .ok (.healthy (s.filter (fun kv => decide (kv.1 ∉ ks))))
  | .failing m, _ => .error m

/-- The handler's own flags: `this.redisEnabled` (set true on `connect`,
false on `error` events) and `this.redis !== null`. -/
structure CacheHandler where
  redisEnabled : Bool
  hasRedis : Bool

/-- The `try { body } catch (error) { console.warn(...) }` idiom of every
cache operation: an exception from the body is swallowed and control falls
through to the operation's fallback result. -/
def tryCatch {α : Type} (body : Except String α) (fallback : α) :
    Except String α :=
  match body with
  | .ok v => .ok v
  | .error _ => .ok fallback

/-- The body of the `try` block of `CustomCacheHandler.get`: fetch from
Redis; a truthy (non-empty) cached string is parsed and returned, parse
failure throws; a falsy cached value falls through to the `return null`
after the block. -/
def getTry (decode : String → Option V) (r : Remote) (key : String) :
    Except String (Option V) := do
  let cached ← r.getOp key
  match cached with
  | some c =>
      if c ≠ "" then
        match decode c with
        | some v => pure (some v)
        | none => Except.error "JSON.parse: unexpected token"
      else pure none
  | none => pure none

/-- `CustomCacheHandler.get` from `src/cache-handler.mjs`: tries Redis only
when `redisEnabled && redis`, catches any error (logging it) and falls
back to `return null`.  The outer `Except` records whether an exception
escapes to the caller. -/
def CustomCacheHandler.get (decode : String → Option V) (h : CacheHandler)
    (r : Remote) (key : String) : Except String (Option V) :=
  if h.redisEnabled && h.hasRedis then
    tryCatch (getTry decode r key) none
  else .ok none

/-- The body of the `try` block of `CustomCacheHandler.set`:
`ttl = context?.revalidate || 86400` (JavaScript `||`: `undefined`, `false`
and `0` all select the 24-hour default), serialize, `SETEX`. -/
def setTry (encode : V → String) (r : Remote) (key : String) (data : V)
    (revalidate : Option Nat) : Except String Remote :=
  let ttl := match revalidate with
    | some n => if n = 0 then 86400 else n
    | none => 86400
  let serialized := encode data
  r.setexOp key ttl serialized

/-- `CustomCacheHandler.set`: best-effort write; any Redis error is caught
and logged, leaving the remote state unchanged; always returns normally. -/
def CustomCacheHandler.set (encode : V → String) (h : CacheHandler)
    (r : Remote) (key : String) (data : V) (revalidate : Option Nat) :
    Except String Remote :=
  if h.redisEnabled && h.hasRedis then
    tryCatch (setTry encode r key data revalidate) r
  else .ok r

/-- The body of the `try` block of `CustomCacheHandler.revalidateTag`:
enumerate keys matching `*tag*`, delete them only when at least one
matched. -/
def revalidateTagTry (r : Remote) (tag : String) : Except String Remote := do
  let keys ← r.keysOp tag
  if keys.length > 0 then
    r.delOp keys
  else
    pure r

/-- `CustomCacheHandler.revalidateTag`: tag-based bulk invalidation;
errors are caught and logged; always returns normally. -/
def CustomCacheHandler.revalidateTag (h : CacheHandler) (r : Remote)
    (tag : String) : Except String Remote :=
  if h.redisEnabled && h.hasRedis then
    tryCatch (revalidateTagTry r tag) r
  else .ok r

/-- `CustomCacheHandler.delete`: unconditional best-effort remote delete;
errors are caught and logged; always returns normally. -/
def CustomCacheHandler.delete (h : CacheHandler) (r : Remote)
    (key : String) : Except String Remote :=
  if h.redisEnabled && h.hasRedis then
    tryCatch (r.delOp [key]) r
  else .ok r

end Starter.Cache


namespace Starter.Health

/-- The overall status enum of the health endpoint. -/
inductive Overall where
  | healthy
  | degraded
  | unhealthy
deriving DecidableEq, Repr

/-- The per-subsystem status values used by the route. -/
inductive SubStatus where
  | connected
  | error
  | disabled
deriving DecidableEq, Repr

/-- The `auth` entry of the response: `enabled` always, `strategy` and
`providers` only spread in when `features.auth` is true (the
`...(features.auth && {...})` idiom); `none` models an omitted key. -/
structure AuthReport where
  enabled : Bool
  strategy : Option Starter.Strategy
  providers : Option (List Starter.Provider)
deriving DecidableEq, Repr

/-- The `database` / `redis` entries of the response.  The TypeScript
interface declares `status?` and `error?` as optional keys, so both are
`Option`s here; the route's object literal always assigns `status`. -/
structure SubReport where
  enabled : Bool
  status : Option SubStatus
  errMsg : Option String
deriving DecidableEq, Repr

/-- The parts of the health response the claims are about. -/
structure HealthReport where
  overall : Overall
  auth : AuthReport
  database : SubReport
  redis : SubReport
deriving DecidableEq, Repr

/-- The providers array built inline by the route:
`[gh && 'github', go && 'google', dc && 'discord'].filter(Boolean)`. -/
def routeProviders (e : Starter.Env) : List Starter.Provider :=
  (([(Starter.features.githubProvider e, Starter.Provider.github),
     (Starter.features.googleProvider e, Starter.Provider.google),
     (Starter.features.discordProvider e, Starter.Provider.discord)].filter
       (fun pb => pb.1)).map (fun pb => pb.2))

/-- The `GET` handler of `src/app/api/health/route.ts`.  Inputs beyond the
environment: whether `getDb()` returns a client (`dbClient`), and the
outcome of the single probe `await db.$queryRaw`SELECT 1`` (`dbProbe`).
The route builds the literal with `status` pre-set from the capabilities,
then, when the database capability is true AND a client was obtained,
runs the probe: failure sets `overall = degraded` and
`database.status = error`.  The redis block performs no live probe: its
`try` body just assigns `connected`. -/
def healthGET (e : Starter.Env) (dbClient : Bool)
    (dbProbe : Except String Unit) : HealthReport :=
  let base : HealthReport :=
    { overall := .healthy
      auth :=
        { enabled := Starter.features.auth e
          strategy :=
            if Starter.features.auth e then some (Starter.getAuthStrategy e)
            else none
          providers :=
            if Starter.features.auth e then some (routeProviders e) else none }
      database :=
        { enabled := Starter.features.database e
          status :=
            some (if Starter.features.database e then .connected else .disabled)
          errMsg := none }
      redis :=
        { enabled := Starter.features.redis e
          status :=
            some (if Starter.features.redis e then .connected else .disabled)
          errMsg := none } }
  let afterDb : HealthReport :=
    if Starter.features.database e then
      if dbClient then
        match dbProbe with
        | .ok _ =>
            { base with database := { base.database with status := some .connected } }
        | .error m =>
            { base with
                overall := .degraded
                database :=
                  { base.database with status := some .error, errMsg := some m } }
      else base
    else base
  if Starter.features.redis e then
    { afterDb with redis := { afterDb.redis with status := some .connected } }
  else afterDb

/-- The HTTP status chosen by the route:
`status.status === 'unhealthy' ? 503 : 200`. -/
def httpCode (r : HealthReport) : Nat :=
  if r.overall = .unhealthy then 503 else 200

/-- The subsystem keys of the `features` object: the route's object
literal lists `auth`, `database` and `redis` unconditionally, so the key
list is the same for every report. -/
def featuresSubsystems : HealthReport → List String
  | ⟨_, _, _, _⟩ => ["auth", "database", "redis"]

end Starter.Health

namespace Starter.Health

/-- C5 counterexample environment: only the database capability is on. -/
def c5Env : Starter.Env := { DATABASE_URL := some "postgres://example" }

end Starter.Health


namespace Starter.Cron

/-- `verifyAuth` from the cron route: reads the `authorization` header
(absent = `none`), fails closed when `CRON_SECRET` is falsy (unset or
empty), and otherwise requires the header to be strictly equal to
`Bearer <secret>`. -/
def verifyAuth (secret : Option String) (authHeader : Option String) : Bool :=
  match secret with
  | none => false
  | some s =>
      if s = "" then false
      else decide (authHeader = some ("Bearer " ++ s))

/-- What one call to the cron `GET` handler produces: the HTTP status and
how many times the task logic ran. -/
structure CronResult where
  status : Nat
  taskRuns : Nat
deriving DecidableEq, Repr

/-- The cron route's `GET` handler: on failed verification it returns 401
without touching the task; on success it runs the task body once and
returns the 200 JSON response.  The task body of the source (logging plus
building a literal result object) has no failing operation, so the 500
`catch` branch is unreachable and the success path is total. -/
def cronGET (secret : Option String) (authHeader : Option String) :
    CronResult :=
  if verifyAuth secret authHeader then { status := 200, taskRuns := 1 }
  else { status := 401, taskRuns := 0 }

/-- The cron route's `POST` handler simply delegates to `GET`. -/
def cronPOST (secret : Option String) (authHeader : Option String) :
    CronResult :=
  cronGET secret authHeader

end Starter.Cron

namespace Starter.Db

/-- The caches `getDb` consults and updates: the module-level `prisma`
variable and the dev-only `global.prisma`.  Clients are identified by
`Nat` tokens. -/
structure DbOutcome where
  result : Option Nat
  moduleCache : Option Nat
  globalCache : Option Nat
deriving DecidableEq, Repr

/-- The body of the `try` block of `getDb`: the three `require` calls plus
pool/adapter construction (`requireLibs`, which may throw), then — in
development — reuse `global.prisma` or construct and store a new client,
and — in production — always construct a new client (`mkClient`, which
may throw).  Returns the client handed back plus the new `global.prisma`. -/
def getDbTry (isProd : Bool) (requireLibs : Except String Unit)
    (mkClient : Except String Nat) (g : Option Nat) :
    Except String (Nat × Option Nat) := do
  let _ ← requireLibs
  if isProd then do
    let c ← mkClient
    pure (c, g)
  else
    match g with
    | some gp => pure (gp, some gp)
    | none => do
        let c ← mkClient
        pure (c, some c)

/-- `getDb` from `src/lib/db.ts`: returns `null` immediately when the
database capability is false; returns the memoized module-level client if
present; otherwise runs the construction `try` block, memoizing on
success, and its `catch` swallows any error and returns `null`.  The
outer `Except` records whether an exception escapes to the caller. -/
def getDb (cap : Bool) (moduleCache : Option Nat) (g : Option Nat)
    (isProd : Bool) (requireLibs : Except String Unit)
    (mkClient : Except String Nat) : Except String DbOutcome :=
  if !cap then .ok ⟨none, moduleCache, g⟩
  else
    match moduleCache with
    | some p => .ok ⟨some p, some p, g⟩
    | none =>
        match getDbTry isProd requireLibs mkClient g with
        | .ok (c, g2) => .ok ⟨some c, some c, g2⟩
        | .error _ => .ok ⟨none, moduleCache, g⟩

end Starter.Db

/-- C1: the claim states a provider capability is true iff both values are
non-empty after trimming.  Counterexample: with `GITHUB_ID = " "`
(whitespace-only) and `GITHUB_SECRET = "x"`, the code's capability is
`true` while the spec's trimmed reading is `false`. -/
theorem C1_counterexample :
    Starter.features.githubProvider Starter.c1Env = true ∧
      Starter.specGithubCap Starter.c1Env = false := by
  refine ⟨rfl, ?_⟩
  decide

/-- C1 (amended): a provider capability is true iff both of the provider's
two environment values are present and non-empty, under JavaScript
truthiness — no trimming is performed, so a whitespace-only value counts
as set.  A snapshot with only one of the two values set, or with either
value absent or the empty string, yields a false capability. -/
theorem C1_provider_capability (e : Starter.Env) :
    (Starter.features.githubProvider e =
        (Starter.truthy e.GITHUB_ID && Starter.truthy e.GITHUB_SECRET)) ∧
    (Starter.features.googleProvider e =
        (Starter.truthy e.GOOGLE_ID && Starter.truthy e.GOOGLE_SECRET)) ∧
    (Starter.features.discordProvider e =
        (Starter.truthy e.DISCORD_ID && Starter.truthy e.DISCORD_SECRET)) := by
  exact ⟨rfl, rfl, rfl⟩

/-- C4: in the persistence-optional variant, `getAuthStrategy` returns
`database` iff the database capability is true and `jwt` otherwise; in
the persistence-mandatory variant it returns `database` for every
snapshot. -/
theorem C4_auth_strategy (e : Starter.Env) :
    ((Starter.getAuthStrategy e = .database ↔ Starter.features.database e = true) ∧
     (Starter.features.database e = false → Starter.getAuthStrategy e = .jwt)) ∧
    Starter.getAuthStrategyMandatory e = .database := by
  refine ⟨⟨?_, ?_⟩, rfl⟩
  · unfold Starter.getAuthStrategy
    cases h : Starter.features.database e <;> simp [h]
  · intro h
    unfold Starter.getAuthStrategy
    simp [h]

/-- C8: `getEnabledProviders` returns exactly the providers whose
capability is true, in the fixed order github, google, discord; when no
capability is true the result is the empty list. -/
theorem C8_enabled_providers (e : Starter.Env) :
    Starter.getEnabledProviders e =
      [Starter.Provider.github, .google, .discord].filter (Starter.providerFeature e) := by
  unfold Starter.getEnabledProviders
  cases hg : Starter.features.githubProvider e <;>
    cases ho : Starter.features.googleProvider e <;>
      cases hd : Starter.features.discordProvider e <;>
        simp [List.filter, Starter.providerFeature, hg, ho, hd]

/-- Binding an error propagates it (the `Except` monad of the embedding). -/
theorem Starter.Cache.bindErr {α β : Type} (m : String)
    (f : α → Except String β) :
    ((Except.error m : Except String α) >>= f) = Except.error m := rfl

/-- Binding a success applies the continuation. -/
theorem Starter.Cache.bindOk {α β : Type} (a : α) (f : α → Except String β) :
    ((Except.ok a : Except String α) >>= f) = f a := rfl

/-- `pure` of the embedding's `Except` monad is `Except.ok`. -/
theorem Starter.Cache.pureOk {α : Type} (a : α) :
    (pure a : Except String α) = Except.ok a := rfl

/-- The guarded try/catch of every cache operation always returns normally. -/
theorem Starter.Cache.guardCatchOk {α : Type} (c : Bool) (e : Except String α)
    (fb : α) :
    ∃ v, (if c then Starter.Cache.tryCatch e fb else Except.ok fb)
        = Except.ok v := by
  cases c with
  | false => exact ⟨fb, rfl⟩
  | true =>
      cases e with
      | ok v => exact ⟨v, rfl⟩
      | error m => exact ⟨fb, rfl⟩

/-- C2: no cache operation ever lets an exception escape: for every
handler state, remote behaviour, key, value, and tag, `get`, `set`,
`revalidateTag` and `delete` return normally; against a backend that
throws on every call, `get` returns `null` and the mutating operations
leave the remote state untouched; and `revalidateTag` with a tag matching
zero keys is a no-op, not an error. -/
theorem C2_no_exception_escapes
    {V : Type} (decode : String → Option V) (encode : V → String)
    (h : Starter.Cache.CacheHandler) (r : Starter.Cache.Remote)
    (key tag msg : String) (data : V) (rev : Option Nat)
    (s : Starter.Cache.Store)
    (hzero : s.filter (fun kv => Starter.Cache.hasSub kv.1 tag) = []) :
    ((∃ v, Starter.Cache.CustomCacheHandler.get decode h r key = .ok v) ∧
     (∃ r2, Starter.Cache.CustomCacheHandler.set encode h r key data rev = .ok r2) ∧
     (∃ r3, Starter.Cache.CustomCacheHandler.revalidateTag h r tag = .ok r3) ∧
     (∃ r4, Starter.Cache.CustomCacheHandler.delete h r key = .ok r4)) ∧
    (Starter.Cache.CustomCacheHandler.get decode h (.failing msg) key = .ok none ∧
     Starter.Cache.CustomCacheHandler.set encode h (.failing msg) key data rev
       = .ok (.failing msg) ∧
     Starter.Cache.CustomCacheHandler.revalidateTag h (.failing msg) tag
       = .ok (.failing msg) ∧
     Starter.Cache.CustomCacheHandler.delete h (.failing msg) key
       = .ok (.failing msg)) ∧
    Starter.Cache.CustomCacheHandler.revalidateTag h (.healthy s) tag
      = .ok (.healthy s) := by
  refine ⟨⟨?_, ?_, ?_, ?_⟩, ⟨?_, ?_, ?_, ?_⟩, ?_⟩
  · exact Starter.Cache.guardCatchOk _ _ _
  · exact Starter.Cache.guardCatchOk _ _ _
  · exact Starter.Cache.guardCatchOk _ _ _
  · exact Starter.Cache.guardCatchOk _ _ _
  · cases hb : (h.redisEnabled && h.hasRedis) <;>
      simp [Starter.Cache.CustomCacheHandler.get, hb, Starter.Cache.getTry,
        Starter.Cache.Remote.getOp, Starter.Cache.bindErr, Starter.Cache.tryCatch]
  · cases hb : (h.redisEnabled && h.hasRedis) <;>
      simp [Starter.Cache.CustomCacheHandler.set, hb, Starter.Cache.setTry,
        Starter.Cache.Remote.setexOp, Starter.Cache.tryCatch]
  · cases hb : (h.redisEnabled && h.hasRedis) <;>
      simp [Starter.Cache.CustomCacheHandler.revalidateTag, hb,
        Starter.Cache.revalidateTagTry, Starter.Cache.Remote.keysOp,
        Starter.Cache.bindErr, Starter.Cache.tryCatch]
  · cases hb : (h.redisEnabled && h.hasRedis) <;>
      simp [Starter.Cache.CustomCacheHandler.delete, hb,
        Starter.Cache.Remote.delOp, Starter.Cache.tryCatch]
  · cases hb : (h.redisEnabled && h.hasRedis) <;>
      simp [Starter.Cache.CustomCacheHandler.revalidateTag, hb,
        Starter.Cache.revalidateTagTry, Starter.Cache.Remote.keysOp, hzero,
        Starter.Cache.bindOk, Starter.Cache.pureOk, Starter.Cache.tryCatch]

/-- C2 witness: the theorem applied at a concrete handler, a concrete
one-entry store, and a tag matching none of its keys. -/
theorem C2_no_exception_escapes_witness :
    ([(("alpha" : String), ("1" : String))].filter
        (fun kv => Starter.Cache.hasSub kv.1 "zzz") = []) ∧
    (((∃ v, Starter.Cache.CustomCacheHandler.get (fun _ => some (0 : Nat))
          ⟨true, true⟩ (.healthy [("alpha", "1")]) "k" = .ok v) ∧
      (∃ r2, Starter.Cache.CustomCacheHandler.set (fun _ : Nat => "v")
          ⟨true, true⟩ (.healthy [("alpha", "1")]) "k" 0 none = .ok r2) ∧
      (∃ r3, Starter.Cache.CustomCacheHandler.revalidateTag
          ⟨true, true⟩ (.healthy [("alpha", "1")]) "zzz" = .ok r3) ∧
      (∃ r4, Starter.Cache.CustomCacheHandler.delete
          ⟨true, true⟩ (.healthy [("alpha", "1")]) "k" = .ok r4)) ∧
     (Starter.Cache.CustomCacheHandler.get (fun _ => some (0 : Nat))
        ⟨true, true⟩ (.failing "timeout") "k" = .ok none ∧
      Starter.Cache.CustomCacheHandler.set (fun _ : Nat => "v")
        ⟨true, true⟩ (.failing "timeout") "k" 0 none = .ok (.failing "timeout") ∧
      Starter.Cache.CustomCacheHandler.revalidateTag
        ⟨true, true⟩ (.failing "timeout") "zzz" = .ok (.failing "timeout") ∧
      Starter.Cache.CustomCacheHandler.delete
        ⟨true, true⟩ (.failing "timeout") "k" = .ok (.failing "timeout")) ∧
     Starter.Cache.CustomCacheHandler.revalidateTag
       ⟨true, true⟩ (.healthy [("alpha", "1")]) "zzz"
         = .ok (.healthy [("alpha", "1")])) :=
  ⟨by decide,
   C2_no_exception_escapes (fun _ => some (0 : Nat)) (fun _ : Nat => "v")
     ⟨true, true⟩ (.healthy [("alpha", "1")]) "k" "zzz" "timeout" 0 none
     [("alpha", "1")] (by decide)⟩

/-- C3: with a healthy remote backend and an enabled handler,
`set(k, v, ttl, tags)` followed immediately by `get(k)` returns `v` (for
any value the serialization codec round-trips); with the backend
unreachable — either the handler's `redisEnabled` flag cleared or every
remote call throwing — `get(k)` returns `null` and never an error. -/
theorem C3_cache_roundtrip
    {V : Type} (encode : V → String) (decode : String → Option V)
    (h : Starter.Cache.CacheHandler) (s : Starter.Cache.Store)
    (key msg : String) (data : V) (rev : Option Nat)
    (hen : h.redisEnabled = true) (hha : h.hasRedis = true)
    (hdec : decode (encode data) = some data) (hne : encode data ≠ "") :
    (Starter.Cache.CustomCacheHandler.set encode h (.healthy s) key data rev
       = .ok (.healthy ((key, encode data) :: s)) ∧
     Starter.Cache.CustomCacheHandler.get decode h
       (.healthy ((key, encode data) :: s)) key = .ok (some data)) ∧
    Starter.Cache.CustomCacheHandler.get decode h (.failing msg) key = .ok none ∧
    Starter.Cache.CustomCacheHandler.get decode
      ⟨false, h.hasRedis⟩ (.healthy s) key = .ok none := by
  have httl : (match rev with
      | some n => if n = 0 then 86400 else n
      | none => 86400) ≠ 0 := by
    cases rev with
    | none => simp
    | some n =>
        by_cases hn : n = 0 <;> simp [hn]
  refine ⟨⟨?_, ?_⟩, ?_, ?_⟩
  · simp [Starter.Cache.CustomCacheHandler.set, hen, hha, Starter.Cache.setTry,
      Starter.Cache.Remote.setexOp, httl, Starter.Cache.tryCatch]
  · simp [Starter.Cache.CustomCacheHandler.get, hen, hha, Starter.Cache.getTry,
      Starter.Cache.Remote.getOp, Starter.Cache.Store.find,
      Starter.Cache.bindOk, Starter.Cache.pureOk, hdec, hne,
      Starter.Cache.tryCatch]
  · simp [Starter.Cache.CustomCacheHandler.get, hen, hha, Starter.Cache.getTry,
      Starter.Cache.Remote.getOp, Starter.Cache.bindErr, Starter.Cache.tryCatch]
  · simp [Starter.Cache.CustomCacheHandler.get]

/-- C3 witness: the round-trip at a concrete codec, key and value. -/
theorem C3_cache_roundtrip_witness :
    ((fun _ : String => some (5 : Nat)) ((fun _ : Nat => "v") 5) = some 5 ∧
     (fun _ : Nat => "v") 5 ≠ "") ∧
    ((Starter.Cache.CustomCacheHandler.set (fun _ : Nat => "v")
        ⟨true, true⟩ (.healthy []) "k" 5 none
          = .ok (.healthy [("k", (fun _ : Nat => "v") 5)]) ∧
      Starter.Cache.CustomCacheHandler.get (fun _ : String => some (5 : Nat))
        ⟨true, true⟩ (.healthy [("k", (fun _ : Nat => "v") 5)]) "k"
          = .ok (some 5)) ∧
     Starter.Cache.CustomCacheHandler.get (fun _ : String => some (5 : Nat))
       ⟨true, true⟩ (.failing "timeout") "k" = .ok none ∧
     Starter.Cache.CustomCacheHandler.get (fun _ : String => some (5 : Nat))
       ⟨false, true⟩ (.healthy []) "k" = .ok none) :=
  ⟨⟨rfl, by decide⟩,
   C3_cache_roundtrip (fun _ : Nat => "v") (fun _ : String => some (5 : Nat))
     ⟨true, true⟩ [] "k" "timeout" 5 none rfl rfl rfl (by decide)⟩

/-- C5: the claim says the aggregation performs one connectivity probe for
each subsystem whose capability is true, and that a probe failure sets
that subsystem's status to error and downgrades overall to degraded.
Counterexample: with the database capability true but `getDb()` returning
null (`dbClient = false`), the route skips the probe entirely; even with
the probe outcome an error, the reported status stays `connected` and
overall stays `healthy`. -/
theorem C5_counterexample :
    (Starter.Health.healthGET Starter.Health.c5Env false
        (.error "connection refused")).database.status
      = some .connected ∧
    (Starter.Health.healthGET Starter.Health.c5Env false
        (.error "connection refused")).overall = .healthy := by
  constructor <;> decide

/-- C5 (amended): subsystems whose capability is false are reported
without a probe — database and cache with `status = disabled`, auth only
via `enabled = false` (its entry has no status key; strategy and
providers are omitted).  When the database capability is true AND a
client is obtained, the single probe runs: a failure sets
`database.status = error` (with the message) and downgrades overall from
healthy to degraded, and a probe failure never makes overall unhealthy;
when the client is unavailable no probe runs and the status stays at its
pre-set `connected`.  The redis subsystem is reported `connected` without
a live probe whenever its capability is true.  The capability set
{auth:false, database:true with client and failing probe, cache:false}
yields overall=degraded, auth.enabled=false, database.status=error,
cache.status=disabled. -/
theorem C5_health_aggregation (e : Starter.Env) (c : Bool) (m : String)
    (p : Except String Unit) :
    ((Starter.features.database e = false →
        (Starter.Health.healthGET e c p).database.status = some .disabled) ∧
     (Starter.features.redis e = false →
        (Starter.Health.healthGET e c p).redis.status = some .disabled) ∧
     (Starter.features.auth e = false →
        (Starter.Health.healthGET e c p).auth.enabled = false ∧
        (Starter.Health.healthGET e c p).auth.strategy = none ∧
        (Starter.Health.healthGET e c p).auth.providers = none)) ∧
    (Starter.features.database e = true →
       (Starter.Health.healthGET e true (.error m)).database.status
           = some .error ∧
       (Starter.Health.healthGET e true (.error m)).database.errMsg = some m ∧
       (Starter.Health.healthGET e true (.error m)).overall = .degraded) ∧
    ((Starter.Health.healthGET e c p).overall = .healthy ∨
     (Starter.Health.healthGET e c p).overall = .degraded) ∧
    (Starter.features.database e = true → c = true →
       (Starter.Health.healthGET e c p).database.status = some .connected ∨
       (Starter.Health.healthGET e c p).database.status = some .error) ∧
    (Starter.features.database e = true → c = false →
       (Starter.Health.healthGET e c p).database.status = some .connected) ∧
    (Starter.features.redis e = true →
       (Starter.Health.healthGET e c p).redis.status = some .connected) ∧
    (Starter.features.auth e = false → Starter.features.database e = true →
       Starter.features.redis e = false →
       (Starter.Health.healthGET e true (.error m)).overall = .degraded ∧
       (Starter.Health.healthGET e true (.error m)).auth.enabled = false ∧
       (Starter.Health.healthGET e true (.error m)).database.status
           = some .error ∧
       (Starter.Health.healthGET e true (.error m)).redis.status
           = some .disabled) := by
  cases hdb : Starter.features.database e <;>
    cases hrd : Starter.features.redis e <;>
      cases hau : Starter.features.auth e <;>
        cases c <;>
          cases p <;>
            simp [Starter.Health.healthGET, hdb, hrd, hau]

/-- C5 witness: the amended theorem at the scenario's capability set
{auth:false, database:true, cache:false}, with a client available and the
probe failing. -/
theorem C5_health_aggregation_witness :
    ((Starter.features.database Starter.Health.c5Env = false →
        (Starter.Health.healthGET Starter.Health.c5Env true
            (.error "connection refused")).database.status = some .disabled) ∧
     (Starter.features.redis Starter.Health.c5Env = false →
        (Starter.Health.healthGET Starter.Health.c5Env true
            (.error "connection refused")).redis.status = some .disabled) ∧
     (Starter.features.auth Starter.Health.c5Env = false →
        (Starter.Health.healthGET Starter.Health.c5Env true
            (.error "connection refused")).auth.enabled = false ∧
        (Starter.Health.healthGET Starter.Health.c5Env true
            (.error "connection refused")).auth.strategy = none ∧
        (Starter.Health.healthGET Starter.Health.c5Env true
            (.error "connection refused")).auth.providers = none)) ∧
    (Starter.features.database Starter.Health.c5Env = true →
       (Starter.Health.healthGET Starter.Health.c5Env true
           (.error "connection refused")).database.status = some .error ∧
       (Starter.Health.healthGET Starter.Health.c5Env true
           (.error "connection refused")).database.errMsg
             = some "connection refused" ∧
       (Starter.Health.healthGET Starter.Health.c5Env true
           (.error "connection refused")).overall = .degraded) ∧
    ((Starter.Health.healthGET Starter.Health.c5Env true
        (.error "connection refused")).overall = .healthy ∨
     (Starter.Health.healthGET Starter.Health.c5Env true
        (.error "connection refused")).overall = .degraded) ∧
    (Starter.features.database Starter.Health.c5Env = true → true = true →
       (Starter.Health.healthGET Starter.Health.c5Env true
           (.error "connection refused")).database.status = some .connected ∨
       (Starter.Health.healthGET Starter.Health.c5Env true
           (.error "connection refused")).database.status = some .error) ∧
    (Starter.features.database Starter.Health.c5Env = true → true = false →
       (Starter.Health.healthGET Starter.Health.c5Env true
           (.error "connection refused")).database.status = some .connected) ∧
    (Starter.features.redis Starter.Health.c5Env = true →
       (Starter.Health.healthGET Starter.Health.c5Env true
           (.error "connection refused")).redis.status = some .connected) ∧
    (Starter.features.auth Starter.Health.c5Env = false →
       Starter.features.database Starter.Health.c5Env = true →
       Starter.features.redis Starter.Health.c5Env = false →
       (Starter.Health.healthGET Starter.Health.c5Env true
           (.error "connection refused")).overall = .degraded ∧
       (Starter.Health.healthGET Starter.Health.c5Env true
           (.error "connection refused")).auth.enabled = false ∧
       (Starter.Health.healthGET Starter.Health.c5Env true
           (.error "connection refused")).database.status = some .error ∧
       (Starter.Health.healthGET Starter.Health.c5Env true
           (.error "connection refused")).redis.status = some .disabled) :=
  C5_health_aggregation Starter.Health.c5Env true "connection refused"
    (.error "connection refused")

/-- C6: for every pair of environment snapshots and probe outcomes the
response keeps the same subsystem shape — the `features` object always
lists `auth`, `database` and `redis`, the `status` key of `database` and
`redis` is always present, with `disabled` (rather than omission) when
the capability is false — and the HTTP status is 200 exactly when overall
is healthy or degraded and 503 exactly when it is unhealthy. -/
theorem C6_health_shape (e e2 : Starter.Env) (c c2 : Bool)
    (p p2 : Except String Unit) :
    (Starter.Health.featuresSubsystems (Starter.Health.healthGET e c p)
        = Starter.Health.featuresSubsystems (Starter.Health.healthGET e2 c2 p2)) ∧
    ((Starter.Health.healthGET e c p).database.status).isSome = true ∧
    ((Starter.Health.healthGET e c p).redis.status).isSome = true ∧
    (Starter.features.database e = false →
        (Starter.Health.healthGET e c p).database.status = some .disabled) ∧
    (Starter.features.redis e = false →
        (Starter.Health.healthGET e c p).redis.status = some .disabled) ∧
    (Starter.Health.httpCode (Starter.Health.healthGET e c p)
        = if (Starter.Health.healthGET e c p).overall = .unhealthy then 503
          else 200) ∧
    (((Starter.Health.healthGET e c p).overall = .healthy ∨
      (Starter.Health.healthGET e c p).overall = .degraded) ↔
        Starter.Health.httpCode (Starter.Health.healthGET e c p) = 200) ∧
    ((Starter.Health.healthGET e c p).overall = .unhealthy ↔
        Starter.Health.httpCode (Starter.Health.healthGET e c p) = 503) := by
  refine ⟨rfl, ?_, ?_, ?_, ?_, rfl, ?_, ?_⟩
  · cases hdb : Starter.features.database e <;>
      cases hrd : Starter.features.redis e <;>
        cases c <;> cases p <;>
          simp [Starter.Health.healthGET, hdb, hrd]
  · cases hdb : Starter.features.database e <;>
      cases hrd : Starter.features.redis e <;>
        cases c <;> cases p <;>
          simp [Starter.Health.healthGET, hdb, hrd]
  · intro hdb
    cases hrd : Starter.features.redis e <;>
      cases c <;> cases p <;>
        simp [Starter.Health.healthGET, hdb, hrd]
  · intro hrd
    cases hdb : Starter.features.database e <;>
      cases c <;> cases p <;>
        simp [Starter.Health.healthGET, hdb, hrd]
  · cases ho : (Starter.Health.healthGET e c p).overall <;>
      simp [Starter.Health.httpCode, ho]
  · cases ho : (Starter.Health.healthGET e c p).overall <;>
      simp [Starter.Health.httpCode, ho]

/-- C6 witness: the shape statement at two concrete snapshots — one with
nothing configured, one with only the database configured and a failing
probe. -/
theorem C6_health_shape_witness :
    (Starter.Health.featuresSubsystems
        (Starter.Health.healthGET {} false (.ok ()))
      = Starter.Health.featuresSubsystems
          (Starter.Health.healthGET Starter.Health.c5Env true
            (.error "connection refused"))) ∧
    ((Starter.Health.healthGET {} false (.ok ())).database.status).isSome
        = true ∧
    ((Starter.Health.healthGET {} false (.ok ())).redis.status).isSome
        = true ∧
    (Starter.features.database {} = false →
        (Starter.Health.healthGET {} false (.ok ())).database.status
          = some .disabled) ∧
    (Starter.features.redis {} = false →
        (Starter.Health.healthGET {} false (.ok ())).redis.status
          = some .disabled) ∧
    (Starter.Health.httpCode (Starter.Health.healthGET {} false (.ok ()))
        = if (Starter.Health.healthGET {} false (.ok ())).overall = .unhealthy
          then 503 else 200) ∧
    (((Starter.Health.healthGET {} false (.ok ())).overall = .healthy ∨
      (Starter.Health.healthGET {} false (.ok ())).overall = .degraded) ↔
        Starter.Health.httpCode (Starter.Health.healthGET {} false (.ok ()))
          = 200) ∧
    ((Starter.Health.healthGET {} false (.ok ())).overall = .unhealthy ↔
        Starter.Health.httpCode (Starter.Health.healthGET {} false (.ok ()))
          = 503) :=
  C6_health_shape {} Starter.Health.c5Env false true (.ok ())
    (.error "connection refused")

/-- C9: no code path of the health handler assigns `unhealthy` — the
overall status is always `healthy` or `degraded`, so for every
environment snapshot, client availability and probe outcome the endpoint
responds with HTTP 200, never 503. -/
theorem C9_never_unhealthy (e : Starter.Env) (c : Bool)
    (p : Except String Unit) :
    ((Starter.Health.healthGET e c p).overall = .healthy ∨
     (Starter.Health.healthGET e c p).overall = .degraded) ∧
    Starter.Health.httpCode (Starter.Health.healthGET e c p) = 200 := by
  have hover : (Starter.Health.healthGET e c p).overall = .healthy ∨
      (Starter.Health.healthGET e c p).overall = .degraded := by
    cases hdb : Starter.features.database e <;>
      cases hrd : Starter.features.redis e <;>
        cases c <;> cases p <;>
          simp [Starter.Health.healthGET, hdb, hrd]
  refine ⟨hover, ?_⟩
  rcases hover with h | h <;> simp [Starter.Health.httpCode, h]

/-- C7: with a validated environment (a configured `CRON_SECRET` passed
the startup minimum-length check, so it is at least 32 characters), a
request with the secret unconfigured, the `Authorization` header missing,
or the header not exactly equal to `Bearer <configured-secret>` gets 401
with zero task executions; a request whose header matches exactly gets
200 with the task executed exactly once. -/
theorem C7_cron_bearer (secret authHeader : Option String)
    (hval : ∀ s, secret = some s → 32 ≤ s.length) :
    ((secret = none ∨ authHeader = none ∨
        (∀ s, secret = some s → authHeader ≠ some ("Bearer " ++ s))) →
      Starter.Cron.cronGET secret authHeader
        = { status := 401, taskRuns := 0 }) ∧
    (∀ s, secret = some s → authHeader = some ("Bearer " ++ s) →
      Starter.Cron.cronGET secret authHeader
        = { status := 200, taskRuns := 1 }) := by
  constructor
  · intro hbad
    cases hsec : secret with
    | none => simp [Starter.Cron.cronGET, Starter.Cron.verifyAuth]
    | some s =>
        have h32 : 32 ≤ s.length := hval s hsec
        have hs : ¬(s = "") := by
          intro h
          subst h
          simp at h32
        rcases hbad with h | h | h
        · rw [hsec] at h
          exact absurd h (by simp)
        · subst h
          simp [Starter.Cron.cronGET, Starter.Cron.verifyAuth, hs]
        · have hne := h s hsec
          simp [Starter.Cron.cronGET, Starter.Cron.verifyAuth, hs, hne]
  · intro s hsec hhdr
    have h32 : 32 ≤ s.length := hval s hsec
    have hs : ¬(s = "") := by
      intro h
      subst h
      simp at h32
    subst hsec
    subst hhdr
    simp [Starter.Cron.cronGET, Starter.Cron.verifyAuth, hs]

/-- C7 witness: a concrete 32-character secret; the matching request gets
200 with one task run, and a mismatching request gets 401 with none. -/
theorem C7_cron_bearer_witness :
    (∀ s, (some "abcdefghijklmnopqrstuvwxyz012345" : Option String) = some s →
        32 ≤ s.length) ∧
    (((some "abcdefghijklmnopqrstuvwxyz012345" : Option String) = none ∨
        (some "Bearer wrong" : Option String) = none ∨
        (∀ s, (some "abcdefghijklmnopqrstuvwxyz012345" : Option String)
            = some s →
          (some "Bearer wrong" : Option String)
            ≠ some ("Bearer " ++ s))) →
      Starter.Cron.cronGET (some "abcdefghijklmnopqrstuvwxyz012345")
          (some "Bearer wrong") = { status := 401, taskRuns := 0 }) ∧
    Starter.Cron.cronGET (some "abcdefghijklmnopqrstuvwxyz012345")
        (some ("Bearer " ++ "abcdefghijklmnopqrstuvwxyz012345"))
      = { status := 200, taskRuns := 1 } := by
  have hval : ∀ s,
      (some "abcdefghijklmnopqrstuvwxyz012345" : Option String) = some s →
        32 ≤ s.length := by
    intro s h
    injection h with h2
    subst h2
    decide
  refine ⟨hval, ?_, ?_⟩
  · exact (C7_cron_bearer (some "abcdefghijklmnopqrstuvwxyz012345")
      (some "Bearer wrong") hval).1
  · exact (C7_cron_bearer (some "abcdefghijklmnopqrstuvwxyz012345")
      (some ("Bearer " ++ "abcdefghijklmnopqrstuvwxyz012345")) hval).2
      "abcdefghijklmnopqrstuvwxyz012345" rfl rfl

/-- C10: `getDb` never throws; with the capability false it returns null
immediately with both caches untouched; with the capability true, an
empty memo and a failing construction (the `require`/pool step, or the
client constructor when one would actually be invoked) it returns null
rather than raising; and a non-null result is either the memoized
module-level client, the dev-mode `global.prisma`, or a freshly
constructed client. -/
theorem C10_getDb_null_safety (cap isProd : Bool)
    (moduleCache g : Option Nat) (requireLibs : Except String Unit)
    (mkClient : Except String Nat) :
    (∃ o, Starter.Db.getDb cap moduleCache g isProd requireLibs mkClient
        = .ok o) ∧
    (cap = false →
      Starter.Db.getDb cap moduleCache g isProd requireLibs mkClient
        = .ok ⟨none, moduleCache, g⟩) ∧
    (∀ m, cap = true → moduleCache = none → requireLibs = .error m →
      Starter.Db.getDb cap moduleCache g isProd requireLibs mkClient
        = .ok ⟨none, none, g⟩) ∧
    (∀ m, cap = true → moduleCache = none → mkClient = .error m →
      isProd = true →
      Starter.Db.getDb cap moduleCache g isProd requireLibs mkClient
        = .ok ⟨none, none, g⟩) ∧
    (∀ m, cap = true → moduleCache = none → mkClient = .error m →
      isProd = false → g = none →
      Starter.Db.getDb cap moduleCache g isProd requireLibs mkClient
        = .ok ⟨none, none, g⟩) ∧
    (∀ o c, Starter.Db.getDb cap moduleCache g isProd requireLibs mkClient
        = .ok o →
      o.result = some c →
      moduleCache = some c ∨ (isProd = false ∧ g = some c) ∨
        mkClient = .ok c) := by
  cases cap <;> cases isProd <;>
    cases moduleCache <;> cases g <;>
      cases requireLibs <;> cases mkClient <;>
        simp [Starter.Db.getDb, Starter.Db.getDbTry, Starter.Cache.bindErr,
          Starter.Cache.bindOk, Starter.Cache.pureOk] <;>
        (intro o c ho hc
         subst ho
         simp_all)

/-- C10 witness: capability on, nothing memoized, production mode, the
module `require` succeeding but the client constructor failing — the
accessor returns null without raising. -/
theorem C10_getDb_null_safety_witness :
    (∃ o, Starter.Db.getDb true none none true (.ok ())
        (.error "prisma client not generated") = .ok o) ∧
    (true = false →
      Starter.Db.getDb true none none true (.ok ())
          (.error "prisma client not generated")
        = .ok ⟨none, none, none⟩) ∧
    (∀ m, true = true → (none : Option Nat) = none →
      (.ok () : Except String Unit) = .error m →
      Starter.Db.getDb true none none true (.ok ())
          (.error "prisma client not generated")
        = .ok ⟨none, none, none⟩) ∧
    (∀ m, true = true → (none : Option Nat) = none →
      (.error "prisma client not generated" : Except String Nat)
          = .error m →
      true = true →
      Starter.Db.getDb true none none true (.ok ())
          (.error "prisma client not generated")
        = .ok ⟨none, none, none⟩) ∧
    (∀ m, true = true → (none : Option Nat) = none →
      (.error "prisma client not generated" : Except String Nat)
          = .error m →
      true = false → (none : Option Nat) = none →
      Starter.Db.getDb true none none true (.ok ())
          (.error "prisma client not generated")
        = .ok ⟨none, none, none⟩) ∧
    (∀ o c, Starter.Db.getDb true none none true (.ok ())
          (.error "prisma client not generated") = .ok o →
      o.result = some c →
      (none : Option Nat) = some c ∨ (true = false ∧ (none : Option Nat) = some c) ∨
        (.error "prisma client not generated" : Except String Nat)
          = .ok c) :=
  C10_getDb_null_safety true true none none (.ok ())
    (.error "prisma client not generated")

/-- C4 witness: the strategy dichotomy at the empty snapshot (no database
configured): the optional variant picks `jwt`, the mandatory variant
still picks `database`. -/
theorem C4_auth_strategy_witness :
    ((Starter.getAuthStrategy {} = .database ↔
        Starter.features.database {} = true) ∧
     (Starter.features.database {} = false →
        Starter.getAuthStrategy {} = .jwt)) ∧
    Starter.getAuthStrategyMandatory {} = .database :=
  C4_auth_strategy {}
